import Mathlib

/-!
# Verification of the liqo-resource-broker decision and reservation core

Shallow embedding of the repository's Go sources into Lean 4:

* `api/v1alpha1/clusteradvertisement_types.go`, `api/v1alpha1/reservation_types.go`
  — the data model.  Kubernetes `resource.Quantity` values are exact
  arbitrary-precision decimals; all broker arithmetic on them (`Add`, `Sub`,
  `Cmp`, `Sign`) is exact, so quantities are modelled as `ℤ` (milli-CPU for
  CPU, bytes for memory).
* `internal/resource/availability.go` — `CalculateAvailable`,
  `UpdateAvailableResources`.
* `internal/resource` reservation helpers — `CanReserve`, `AddReservation`,
  `RemoveReservation` (the variants that recompute availability through
  `UpdateAvailableResources`).
* `internal/broker/decision.go` — `hasEnoughResources`, `calculateScore`,
  `SelectBestCluster`, `calculateBaseScore`, `UpdateClusterScore`.
  The Go code computes scores in `float64` via `AsApproximateFloat64`; scores
  are modelled in exact rational arithmetic (`ℚ`).  Every concrete input used
  in a theorem below evaluates exactly in binary floating point as well, so
  the rational model agrees with the Go computation on those inputs.
* `internal/controller/reservation_controller.go` — the Reservation
  reconcile pipeline, modelled as a pure step function over an environment
  recording the substrate state (`ReconcileEnv`); all substrate reads and
  writes are taken to succeed.
* `internal/controller` ClusterAdvertisement reconciler (the variant with the
  configurable `StalenessThreshold` field) — staleness marking and score
  refresh.

Durations/instants are modelled in nanoseconds (`ℤ`), matching Go's
`time.Duration`.
-/

/-- Mirrors `ResourceQuantities` (clusteradvertisement_types.go): CPU and
memory are required quantities, GPU and storage optional pointers. -/
structure ResourceQuantities where
  cpu : ℤ
  memory : ℤ
  gpu : Option ℤ := none
  storage : Option ℤ := none
deriving DecidableEq, Repr

/-- Mirrors `ResourceMetrics`: capacity / allocatable / allocated / available
vectors plus the optional broker-owned `Reserved` pointer. -/
structure ResourceMetrics where
  capacity : ResourceQuantities
  allocatable : ResourceQuantities
  allocated : ResourceQuantities
  reserved : Option ResourceQuantities := none
  available : ResourceQuantities
deriving DecidableEq, Repr

/-- Mirrors `CostInfo`.  The Go struct stores the rates as decimal strings and
the broker code never parses them (it only tests the pointer for nil); the
exact rational rates are carried here so the spec's cost formula can be
stated against the same record. -/
structure CostInfo where
  cpuCost : ℚ
  memoryCost : ℚ
  currency : String
deriving DecidableEq, Repr

/-- Mirrors `ClusterAdvertisementSpec`. -/
structure ClusterAdvertisementSpec where
  clusterID : String
  clusterName : String := ""
  resources : ResourceMetrics
  cost : Option CostInfo := none
  timestamp : ℤ
  endpointURL : String := ""
deriving DecidableEq, Repr

/-- Mirrors `ClusterAdvertisementStatus`.  The Go `Score` field holds the
2-decimal string rendering (`strconv.FormatFloat(score, 'f', 2, 64)`) of the
computed score; the numeric value it renders is carried here.  Status
conditions (`Ready` / `Stale` / `Overcommitted`) are bookkeeping not touched
by any claim and are left out. -/
structure ClusterAdvertisementStatus where
  phase : String := ""
  active : Bool := false
  message : String := ""
  score : ℚ := 0
deriving DecidableEq, Repr

/-- Mirrors `ClusterAdvertisement`. -/
structure ClusterAdvertisement where
  spec : ClusterAdvertisementSpec
  status : ClusterAdvertisementStatus
deriving DecidableEq, Repr

/-! ## internal/resource/availability.go -/

/-- Embeds `CalculateAvailable` (availability.go lines 11-21): copy `allocatable`,
subtract `allocated`, and subtract `reserved` when the pointer is non-nil. -/
def CalculateAvailable (allocatable allocated : ℤ) (reserved : Option ℤ) : ℤ :=
  allocatable - allocated - (match reserved with | some r => r | none => 0)

/-- Embeds `UpdateAvailableResources` (availability.go lines 24-60): recompute
`Available` for CPU and memory (a nil `Reserved` contributes zero), and for
GPU only when `Allocatable.GPU` is non-nil.  In that GPU branch the Go code
dereferences `Allocated.GPU` unconditionally (it assumes the agent publishes
an allocated GPU count whenever an allocatable one exists; a nil pointer
would panic) — the dereference is modelled as defaulting to zero. -/
def UpdateAvailableResources (resources : ResourceMetrics) : ResourceMetrics :=
  let reservedCPU : ℤ := match resources.reserved with
    | some r => r.cpu
    | none => 0
  let availableCPU := CalculateAvailable resources.allocatable.cpu resources.allocated.cpu
    (some reservedCPU)
  let reservedMemory : ℤ := match resources.reserved with
    | some r => r.memory
    | none => 0
  let availableMemory := CalculateAvailable resources.allocatable.memory
    resources.allocated.memory (some reservedMemory)
  let availableGPU : Option ℤ := match resources.allocatable.gpu with
    | none => resources.available.gpu
    | some allocatableGPU =>
        let reservedGPU : ℤ := match resources.reserved with
          | some r => (match r.gpu with | some g => g | none => 0)
          | none => 0
        let allocatedGPU : ℤ := match resources.allocated.gpu with
          | some g => g
          | none => 0
        some (CalculateAvailable allocatableGPU allocatedGPU (some reservedGPU))
  { resources with
      available := { resources.available with
        cpu := availableCPU
        memory := availableMemory
        gpu := availableGPU } }

/-! ## internal/resource reservation helpers -/

/-- Embeds `CanReserve`: available CPU and memory each at least the request. -/
def CanReserve (clusterAdv : ClusterAdvertisement)
    (requestedCPU requestedMemory : ℤ) : Bool :=
  decide (requestedCPU ≤ clusterAdv.spec.resources.available.cpu) &&
    decide (requestedMemory ≤ clusterAdv.spec.resources.available.memory)

/-- Embeds `AddReservation`: initialise `Reserved` to zero CPU/memory when nil, add
the request to it, then recompute `Available` via
`UpdateAvailableResources`.  The Go function always returns a nil error. -/
def AddReservation (clusterAdv : ClusterAdvertisement)
    (cpuToReserve memoryToReserve : ℤ) : ClusterAdvertisement :=
  let reserved := match clusterAdv.spec.resources.reserved with
    | some r => r
    | none => { cpu := 0, memory := 0 }
  let reserved' := { reserved with
    cpu := reserved.cpu + cpuToReserve
    memory := reserved.memory + memoryToReserve }
  let resources' := UpdateAvailableResources
    { clusterAdv.spec.resources with reserved := some reserved' }
  { clusterAdv with spec := { clusterAdv.spec with resources := resources' } }

/-- Embeds `RemoveReservation`: error (modelled as `none`) when `Reserved` is nil;
otherwise subtract the released CPU/memory from it — with no underflow
check — and recompute `Available` via `UpdateAvailableResources`. -/
def RemoveReservation (clusterAdv : ClusterAdvertisement)
    (cpuToRelease memoryToRelease : ℤ) : Option ClusterAdvertisement :=
  match clusterAdv.spec.resources.reserved with
  | none => none
  | some reserved =>
      let reserved' := { reserved with
        cpu := reserved.cpu - cpuToRelease
        memory := reserved.memory - memoryToRelease }
      let resources' := UpdateAvailableResources
        { clusterAdv.spec.resources with reserved := some reserved' }
      some { clusterAdv with
        spec := { clusterAdv.spec with resources := resources' } }

/-! ## internal/broker/decision.go -/

/-- Embeds `hasEnoughResources` (decision.go lines 74-82): available CPU and memory
each compare `≥` against the request. -/
def hasEnoughResources (cluster : ClusterAdvertisement)
    (requestedCPU requestedMemory : ℤ) : Bool :=
  decide (requestedCPU ≤ cluster.spec.resources.available.cpu) &&
    decide (requestedMemory ≤ cluster.spec.resources.available.memory)

/-- Embeds `calculateScore` (decision.go lines 86-119): utilization-after-reservation
for CPU and memory, a balanced score `(1 − 0.5·cpuUtil) + (1 − 0.5·memUtil)`,
a flat `× 0.9` penalty when cost information is present, plus
`0.01 × priority`.  The Go code computes this in `float64`; modelled here in
`ℚ` (rational division by zero yields 0 where the float code would produce
an infinity or NaN — no theorem below evaluates the score at a zero
allocatable). -/
def calculateScore (cluster : ClusterAdvertisement)
    (requestedCPU requestedMemory : ℤ) (priority : ℤ) : ℚ :=
  let allocatableCPU : ℚ := (cluster.spec.resources.allocatable.cpu : ℚ)
  let availableCPU : ℚ := (cluster.spec.resources.available.cpu : ℚ)
  let cpuUtilization : ℚ := 1 - ((availableCPU - (requestedCPU : ℚ)) / allocatableCPU)
  let allocatableMemory : ℚ := (cluster.spec.resources.allocatable.memory : ℚ)
  let availableMemory : ℚ := (cluster.spec.resources.available.memory : ℚ)
  let memoryUtilization : ℚ :=
    1 - ((availableMemory - (requestedMemory : ℚ)) / allocatableMemory)
  let score : ℚ := (1 - cpuUtilization * 0.5) + (1 - memoryUtilization * 0.5)
  let score : ℚ := match cluster.spec.cost with
    | some _ => score * 0.9
    | none => score
  score + (priority : ℚ) * 0.01

/-- The three filters of `SelectBestCluster` (decision.go lines 42-55): not
the requester's own cluster, active, and enough available resources. -/
def survivesFilters (cluster : ClusterAdvertisement) (requesterID : String)
    (requestedCPU requestedMemory : ℤ) : Bool :=
  !(decide (cluster.spec.clusterID = requesterID)) &&
    cluster.status.active &&
    hasEnoughResources cluster requestedCPU requestedMemory

/-- The selection loop of `SelectBestCluster` (decision.go lines 39-64):
iterate in list order, skip filtered-out clusters, keep the candidate with
the strictly highest score seen so far (initial best score −1, initial best
cluster nil). -/
def selectLoop (items : List ClusterAdvertisement) (requesterID : String)
    (requestedCPU requestedMemory : ℤ) (priority : ℤ)
    (bestScore : ℚ) (bestCluster : Option ClusterAdvertisement) :
    Option ClusterAdvertisement :=
  match items with
  | [] => bestCluster
  | cluster :: rest =>
      if survivesFilters cluster requesterID requestedCPU requestedMemory then
        let score := calculateScore cluster requestedCPU requestedMemory priority
        if bestScore < score then
          selectLoop rest requesterID requestedCPU requestedMemory priority
            score (some cluster)
        else
          selectLoop rest requesterID requestedCPU requestedMemory priority
            bestScore bestCluster
      else
        selectLoop rest requesterID requestedCPU requestedMemory priority
          bestScore bestCluster

/-- Embeds `SelectBestCluster` (decision.go lines 19-71) on an already-listed set of
advertisements: an empty list is the distinguished "no clusters available"
error, and a nil best cluster after the loop is the "no suitable cluster
found" error; both error returns are modelled as `none`. -/
def SelectBestCluster (advItems : List ClusterAdvertisement)
    (requesterID : String) (requestedCPU requestedMemory : ℤ)
    (priority : ℤ) : Option ClusterAdvertisement :=
  if advItems = [] then none
  else selectLoop advItems requesterID requestedCPU requestedMemory priority
    (-1) none

/-- Embeds `calculateBaseScore` (decision.go lines 135-151): 0 when either
allocatable is zero, otherwise `(availCPU/allocCPU)·50 +
(availMem/allocMem)·50`, with no clamping. -/
def calculateBaseScore (cluster : ClusterAdvertisement) : ℚ :=
  let allocatableCPU : ℚ := (cluster.spec.resources.allocatable.cpu : ℚ)
  let availableCPU : ℚ := (cluster.spec.resources.available.cpu : ℚ)
  let allocatableMemory : ℚ := (cluster.spec.resources.allocatable.memory : ℚ)
  let availableMemory : ℚ := (cluster.spec.resources.available.memory : ℚ)
  if allocatableCPU = 0 ∨ allocatableMemory = 0 then 0
  else (availableCPU / allocatableCPU) * 50 + (availableMemory / allocatableMemory) * 50

/-- Embeds `UpdateClusterScore` (decision.go lines 122-132): store the base score in
the status (the Go code renders it with `strconv.FormatFloat(·, 'f', 2, 64)`
into the `Score` string). -/
def UpdateClusterScore (cluster : ClusterAdvertisement) : ClusterAdvertisement :=
  { cluster with status := { cluster.status with score := calculateBaseScore cluster } }

/-- Modelled from the spec: the per-request score of section 4.3 — this
definition follows the specification's words, not the source, and exists to
be compared with `calculateScore`.  `resourceHeadroom` is the clamped-at-zero
weighted headroom, `costScore` is 1 when cost is unspecified or the total
cost is zero and otherwise `1/(1 + totalCostPerHour)`, and the score is
`0.70 · resourceHeadroom + 0.30 · costScore + 0.01 · priority`. -/
def specScore (cluster : ClusterAdvertisement)
    (requestedCPU requestedMemory : ℤ) (priority : ℤ) : ℚ :=
  let allocatableCPU : ℚ := (cluster.spec.resources.allocatable.cpu : ℚ)
  let availableCPU : ℚ := (cluster.spec.resources.available.cpu : ℚ)
  let allocatableMemory : ℚ := (cluster.spec.resources.allocatable.memory : ℚ)
  let availableMemory : ℚ := (cluster.spec.resources.available.memory : ℚ)
  let resourceHeadroom : ℚ := max 0
    (0.5 * ((availableCPU - (requestedCPU : ℚ)) / allocatableCPU) +
      0.5 * ((availableMemory - (requestedMemory : ℚ)) / allocatableMemory))
  let costScore : ℚ := match cluster.spec.cost with
    | none => 1
    | some cost =>
        let totalCostPerHour : ℚ :=
          (requestedCPU : ℚ) * cost.cpuCost + (requestedMemory : ℚ) * cost.memoryCost
        if totalCostPerHour = 0 then 1 else 1 / (1 + totalCostPerHour)
  0.70 * resourceHeadroom + 0.30 * costScore + 0.01 * (priority : ℚ)

/-! ## api/v1alpha1/reservation_types.go -/

/-- Constant `ReservationPhasePending`. -/
def ReservationPhasePending : String := "Pending"

/-- Constant `ReservationPhaseReserved`. -/
def ReservationPhaseReserved : String := "Reserved"

/-- Constant `ReservationPhaseActive`. -/
def ReservationPhaseActive : String := "Active"

/-- Constant `ReservationPhaseFailed`. -/
def ReservationPhaseFailed : String := "Failed"

/-- Constant `ReservationPhaseReleased`. -/
def ReservationPhaseReleased : String := "Released"

/-- Constant `ReservationConditionRequesterActive`. -/
def ReservationConditionRequesterActive : String := "RequesterActive"

/-- Constant `ReservationConditionRequesterReleased`. -/
def ReservationConditionRequesterReleased : String := "RequesterReleased"

/-- Mirrors `RequestedResourceQuantities`. -/
structure RequestedResourceQuantities where
  cpu : ℤ
  memory : ℤ
  gpu : Option ℤ := none
  storage : Option ℤ := none
deriving DecidableEq, Repr

/-- Mirrors `ReservationSpec` (duration in nanoseconds when present). -/
structure ReservationSpec where
  targetClusterID : String := ""
  requestedResources : RequestedResourceQuantities
  duration : Option ℤ := none
  priority : ℤ := 0
  requesterID : String := ""
deriving DecidableEq, Repr

/-- Mirrors `ReservationStatus`.  A condition is a (type, status=True?) pair;
`phase` is the raw phase string (the Go zero value is the empty string). -/
structure ReservationStatus where
  phase : String := ""
  message : String := ""
  reservedAt : Option ℤ := none
  expiresAt : Option ℤ := none
  conditions : List (String × Bool) := []
deriving DecidableEq, Repr

/-- Mirrors `Reservation` (spec + status; object metadata lives in
`ReconcileEnv`). -/
structure Reservation where
  spec : ReservationSpec
  status : ReservationStatus
deriving DecidableEq, Repr

/-! ## internal/controller/reservation_controller.go

The reconcile pipeline is embedded as a pure step function.  The substrate
state it reads is collected in `ReconcileEnv`: whether the object carries a
deletion timestamp, whether the broker finalizer is present, the current list
of ClusterAdvertisements (what `r.List` returns), and the current wall-clock
instant.  Every substrate read/write (`Get`, `List`, `Update`,
`Status().Update`) is modelled as succeeding; the `RetryOnConflict` wrapper
around the locking protocol therefore runs its body once. -/

/-- The substrate state visible to one reconcile of a Reservation. -/
structure ReconcileEnv where
  deletionTimestamp : Bool := false
  hasFinalizer : Bool := true
  advertisements : List ClusterAdvertisement := []
  now : ℤ := 0
deriving Repr

/-- Embeds `reservationHasCondition` (lines 455-462): some condition of the given
type has status True. -/
def reservationHasCondition (reservation : Reservation) (conditionType : String) : Bool :=
  reservation.status.conditions.any
    (fun c => decide (c.1 = conditionType) && c.2)

/-- Embeds `validateReservationSpec` (lines 464-475): requesterID must be non-empty
and requested CPU and memory must have positive sign; the result is the
error message (`none` = valid).  No other spec field is examined. -/
def validateReservationSpec (reservation : Reservation) : Option String :=
  if reservation.spec.requesterID = "" then
    some "spec.requesterID must be set"
  else if reservation.spec.requestedResources.cpu ≤ 0 then
    some "requested CPU must be greater than zero"
  else if reservation.spec.requestedResources.memory ≤ 0 then
    some "requested memory must be greater than zero"
  else
    none

/-- Embeds `findClusterByID` (lines 426-453): first advertisement in list order
whose `clusterID` matches (the follow-up `Get` re-reads the same object and
succeeds in this model). -/
def findClusterByID (advItems : List ClusterAdvertisement) (clusterID : String) :
    Option ClusterAdvertisement :=
  advItems.find? (fun item => decide (item.spec.clusterID = clusterID))

/-- Replace the first advertisement with the given clusterID (the in-place
mutation of the listed object that `r.Update` then persists). -/
def updateClusterInList (advItems : List ClusterAdvertisement) (clusterID : String)
    (updated : ClusterAdvertisement) : List ClusterAdvertisement :=
  match advItems with
  | [] => []
  | item :: rest =>
      if item.spec.clusterID = clusterID then updated :: rest
      else item :: updateClusterInList rest clusterID updated

/-- Embeds `releaseResources` (lines 373-424): no-op success unless the phase is
Reserved or Active; then locate the target cluster (missing target is
treated as success), remove the reservation's CPU/memory from it —
`RemoveReservation` failing (nil `Reserved`) is the error case, modelled as
`none` — and persist the updated advertisement.  Returns the updated
advertisement list on success. -/
def releaseResources (reservation : Reservation)
    (advItems : List ClusterAdvertisement) : Option (List ClusterAdvertisement) :=
  if reservation.status.phase ≠ ReservationPhaseReserved ∧
      reservation.status.phase ≠ ReservationPhaseActive then
    some advItems
  else
    match findClusterByID advItems reservation.spec.targetClusterID with
    | none => some advItems
    | some targetCluster =>
        match RemoveReservation targetCluster
            reservation.spec.requestedResources.cpu
            reservation.spec.requestedResources.memory with
        | none => none
        | some updated =>
            some (updateClusterInList advItems
              reservation.spec.targetClusterID updated)

/-- Embeds `reserveInTargetCluster` (lines 187-284): find the target advertisement
(not found → phase Failed), check `CanReserve` (insufficient → phase
Failed), otherwise `AddReservation`, persist the advertisement, and mark the
reservation Reserved with `reservedAt = now` and, when a duration is set,
`expiresAt = now + duration`. -/
def reserveInTargetCluster (reservation : Reservation) (env : ReconcileEnv) :
    Reservation × List ClusterAdvertisement :=
  match findClusterByID env.advertisements reservation.spec.targetClusterID with
  | none =>
      ({ reservation with status := { reservation.status with
          phase := ReservationPhaseFailed
          message := "Target cluster " ++ reservation.spec.targetClusterID ++
            " not found. The cluster may have been removed or is not registered with the broker." } },
        env.advertisements)
  | some clusterAdv =>
      if CanReserve clusterAdv reservation.spec.requestedResources.cpu
          reservation.spec.requestedResources.memory then
        let updated := AddReservation clusterAdv
          reservation.spec.requestedResources.cpu
          reservation.spec.requestedResources.memory
        ({ reservation with status := { reservation.status with
            phase := ReservationPhaseReserved
            message := "Resources locked in cluster " ++ reservation.spec.targetClusterID
            reservedAt := some env.now
            expiresAt := match reservation.spec.duration with
              | some d => some (env.now + d)
              | none => reservation.status.expiresAt } },
          updateClusterInList env.advertisements
            reservation.spec.targetClusterID updated)
      else
        ({ reservation with status := { reservation.status with
            phase := ReservationPhaseFailed
            message := "Insufficient resources in cluster " ++
              reservation.spec.targetClusterID } },
          env.advertisements)

/-- Embeds `handlePendingReservation` (lines 138-184): use the explicit target when
set, otherwise run the decision engine — selection failure sets phase Failed
— and bind the chosen clusterID into the spec before reserving. -/
def handlePendingReservation (reservation : Reservation) (env : ReconcileEnv) :
    Reservation × List ClusterAdvertisement :=
  if reservation.spec.targetClusterID ≠ "" then
    reserveInTargetCluster reservation env
  else
    match SelectBestCluster env.advertisements reservation.spec.requesterID
        reservation.spec.requestedResources.cpu
        reservation.spec.requestedResources.memory
        reservation.spec.priority with
    | none =>
        ({ reservation with status := { reservation.status with
            phase := ReservationPhaseFailed
            message := "No suitable cluster found. Ensure clusters are registered, active, and have sufficient available resources." } },
          env.advertisements)
    | some bestCluster =>
        reserveInTargetCluster
          { reservation with spec := { reservation.spec with
              targetClusterID := bestCluster.spec.clusterID } }
          env

/-- Whether `expiresAt` lies strictly in the past (`time.Now().After`). -/
def reservationExpired (reservation : Reservation) (now : ℤ) : Bool :=
  match reservation.status.expiresAt with
  | some t => decide (t < now)
  | none => false

/-- Embeds `handleReservedReservation` (lines 287-326): promote to Active on the
`RequesterActive` condition; otherwise release and move to Released on
expiry (a release error leaves the reservation untouched); otherwise requeue
unchanged. -/
def handleReservedReservation (reservation : Reservation) (env : ReconcileEnv) :
    Reservation × List ClusterAdvertisement :=
  if reservationHasCondition reservation ReservationConditionRequesterActive then
    ({ reservation with status := { reservation.status with
        phase := ReservationPhaseActive
        message := "Requester confirmed activation" } },
      env.advertisements)
  else if reservationExpired reservation env.now then
    match releaseResources reservation env.advertisements with
    | none => (reservation, env.advertisements)
    | some advItems' =>
        ({ reservation with status := { reservation.status with
            phase := ReservationPhaseReleased
            message := "Reservation expired and resources released" } },
          advItems')
  else
    (reservation, env.advertisements)

/-- Embeds `handleActiveReservation` (lines 329-370): release and move to Released
on the `RequesterReleased` condition or on expiry; otherwise requeue
unchanged. -/
def handleActiveReservation (reservation : Reservation) (env : ReconcileEnv) :
    Reservation × List ClusterAdvertisement :=
  if reservationHasCondition reservation ReservationConditionRequesterReleased then
    match releaseResources reservation env.advertisements with
    | none => (reservation, env.advertisements)
    | some advItems' =>
        ({ reservation with status := { reservation.status with
            phase := ReservationPhaseReleased
            message := "Requester released reservation" } },
          advItems')
  else if reservationExpired reservation env.now then
    match releaseResources reservation env.advertisements with
    | none => (reservation, env.advertisements)
    | some advItems' =>
        ({ reservation with status := { reservation.status with
            phase := ReservationPhaseReleased
            message := "Reservation expired and released" } },
          advItems')
  else
    (reservation, env.advertisements)

/-- Embeds `Reconcile` (lines 59-135): deletion handling (release, drop finalizer —
the phase is never touched on that path), finalizer insertion (the Go code
falls through and continues), spec validation (failure → phase Failed with a
structured message), then phase dispatch; Failed, Released and any unknown
phase string fall through unchanged. -/
def reconcileReservation (reservation : Reservation) (env : ReconcileEnv) :
    Reservation × List ClusterAdvertisement :=
  if env.deletionTimestamp then
    if env.hasFinalizer then
      match releaseResources reservation env.advertisements with
      | none => (reservation, env.advertisements)
      | some advItems' => (reservation, advItems')
    else
      (reservation, env.advertisements)
  else
    match validateReservationSpec reservation with
    | some errMessage =>
        ({ reservation with status := { reservation.status with
            phase := ReservationPhaseFailed
            message := "Invalid reservation specification: " ++ errMessage ++
              ". Please check that requesterID is set and requested resources are positive values." } },
          env.advertisements)
    | none =>
        if reservation.status.phase = "" ∨
            reservation.status.phase = ReservationPhasePending then
          handlePendingReservation reservation env
        else if reservation.status.phase = ReservationPhaseReserved then
          handleReservedReservation reservation env
        else if reservation.status.phase = ReservationPhaseActive then
          handleActiveReservation reservation env
        else
          (reservation, env.advertisements)

/-! ## ClusterAdvertisement reconciler (configurable staleness threshold) -/

/-- Duration `2 * time.Minute` in nanoseconds. -/
def twoMinutes : ℤ := 2 * 60 * 1000000000

/-- Duration `10 * time.Minute` in nanoseconds. -/
def tenMinutes : ℤ := 10 * 60 * 1000000000

/-- The ClusterAdvertisement `Reconcile` (controller with the configurable
`StalenessThreshold` field, lines 48-115): recompute `Available` through
`UpdateAvailableResources`, substitute the 2-minute default when the
configured threshold is zero, compare the advertisement age against it
strictly, set `active` / `phase` / `message` accordingly, and refresh the
score via `UpdateClusterScore`. -/
def reconcileAdvertisement (stalenessThreshold : ℤ) (now : ℤ)
    (clusterAdv : ClusterAdvertisement) : ClusterAdvertisement :=
  let clusterAdv := { clusterAdv with spec := { clusterAdv.spec with
    resources := UpdateAvailableResources clusterAdv.spec.resources } }
  let threshold := if stalenessThreshold = 0 then twoMinutes else stalenessThreshold
  let age := now - clusterAdv.spec.timestamp
  let isStale := decide (threshold < age)
  let clusterAdv := { clusterAdv with status := { clusterAdv.status with
    active := !isStale
    phase := if isStale then "Stale" else "Active"
    message := if isStale then "Advertisement has not been updated recently"
      else "Cluster is active and available" } }
  UpdateClusterScore clusterAdv

/-! ## Helper projections and concrete fixtures -/

/-- The reserved CPU a nil-tolerant reader sees (nil `Reserved` is zero). -/
def reservedCpuOrZero (resources : ResourceMetrics) : ℤ :=
  match resources.reserved with
  | some r => r.cpu
  | none => 0

/-- The reserved memory a nil-tolerant reader sees (nil `Reserved` is zero). -/
def reservedMemoryOrZero (resources : ResourceMetrics) : ℤ :=
  match resources.reserved with
  | some r => r.memory
  | none => 0

/-- Metrics with more allocated than allocatable CPU (an agent may publish
any values): 1 allocatable CPU, 2 allocated, nothing reserved. -/
def overAllocatedMetrics : ResourceMetrics :=
  { capacity := { cpu := 1000, memory := 1000 }
    allocatable := { cpu := 1000, memory := 1000 }
    allocated := { cpu := 2000, memory := 0 }
    reserved := none
    available := { cpu := 0, memory := 0 } }

/-- Metrics carrying GPU counts: 4 allocatable, 1 allocated, 2 reserved. -/
def gpuMetrics : ResourceMetrics :=
  { capacity := { cpu := 1000, memory := 1000, gpu := some 4 }
    allocatable := { cpu := 1000, memory := 1000, gpu := some 4 }
    allocated := { cpu := 0, memory := 0, gpu := some 1 }
    reserved := some { cpu := 0, memory := 0, gpu := some 2 }
    available := { cpu := 0, memory := 0 } }

/-- An advertisement whose stored `available` (100 CPU / 100 memory) does not
match the recomputation formula (which gives 1000/1000). -/
def driftedAdv : ClusterAdvertisement :=
  { spec := { clusterID := "drifted"
              resources :=
                { capacity := { cpu := 1000, memory := 1000 }
                  allocatable := { cpu := 1000, memory := 1000 }
                  allocated := { cpu := 0, memory := 0 }
                  reserved := some { cpu := 0, memory := 0 }
                  available := { cpu := 100, memory := 100 } }
              timestamp := 0 }
    status := { active := true } }

/-- A consistent advertisement: allocatable 10/10, allocated 2/2, reserved
1/1, available 7/7 (= the recomputation formula). -/
def consistentAdv : ClusterAdvertisement :=
  { spec := { clusterID := "consistent"
              resources :=
                { capacity := { cpu := 10000, memory := 10000 }
                  allocatable := { cpu := 10000, memory := 10000 }
                  allocated := { cpu := 2000, memory := 2000 }
                  reserved := some { cpu := 1000, memory := 1000 }
                  available := { cpu := 7000, memory := 7000 } }
              timestamp := 0 }
    status := { active := true } }

/-- An advertisement with a small positive reserved amount (1 CPU / 1
memory). -/
def smallReservedAdv : ClusterAdvertisement :=
  { spec := { clusterID := "small"
              resources :=
                { capacity := { cpu := 10000, memory := 10000 }
                  allocatable := { cpu := 10000, memory := 10000 }
                  allocated := { cpu := 0, memory := 0 }
                  reserved := some { cpu := 1000, memory := 1000 }
                  available := { cpu := 9000, memory := 9000 } }
              timestamp := 0 }
    status := { active := true } }

/-! ## C1 — availability recomputation -/

/-- C1 (amended): after `UpdateAvailableResources`, the available quantity of
each tracked resource equals `allocatable − allocated − reserved` with a nil
reserved treated as zero — the plain difference, **not** clamped at zero (the
GPU slot is recomputed exactly when an allocatable GPU is present and is left
untouched otherwise). -/
theorem updateAvailableResources_formula (resources : ResourceMetrics) :
    (UpdateAvailableResources resources).available.cpu
        = resources.allocatable.cpu - resources.allocated.cpu
          - reservedCpuOrZero resources ∧
    (UpdateAvailableResources resources).available.memory
        = resources.allocatable.memory - resources.allocated.memory
          - reservedMemoryOrZero resources ∧
    (∀ g, resources.allocatable.gpu = some g →
      (UpdateAvailableResources resources).available.gpu
        = some (g - (match resources.allocated.gpu with | some a => a | none => 0)
            - (match resources.reserved with
               | some r => (match r.gpu with | some x => x | none => 0)
               | none => 0))) ∧
    (resources.allocatable.gpu = none →
      (UpdateAvailableResources resources).available.gpu
        = resources.available.gpu) := by
  refine ⟨?_, ?_, ?_, ?_⟩
  · cases h : resources.reserved <;>
      simp [UpdateAvailableResources, CalculateAvailable, reservedCpuOrZero, h]
  · cases h : resources.reserved <;>
      simp [UpdateAvailableResources, CalculateAvailable, reservedMemoryOrZero, h]
  · intro g hg
    cases h : resources.reserved <;>
      simp [UpdateAvailableResources, CalculateAvailable, hg, h]
  · intro hg
    simp [UpdateAvailableResources, hg]

/-- Witness for C1 at a concrete input: the GPU branch of the amended claim
at `gpuMetrics` gives available GPU `4 − 1 − 2 = 1`. -/
theorem updateAvailableResources_formula_witness :
    (UpdateAvailableResources gpuMetrics).available.gpu = some 1 := by
  have h := (updateAvailableResources_formula gpuMetrics).2.2.1 4 rfl
  simpa using h

/-- C1 counterexample: with 1 allocatable CPU, 2 allocated and nothing
reserved, the recomputed available CPU is `−1` (in milli-units, `−1000`), not
`max(0, allocatable − allocated − reserved) = 0`, and it is negative — the
code never clamps. -/
theorem updateAvailableResources_not_clamped :
    (UpdateAvailableResources overAllocatedMetrics).available.cpu = -1000 ∧
    (UpdateAvailableResources overAllocatedMetrics).available.cpu
      ≠ max 0 (overAllocatedMetrics.allocatable.cpu
          - overAllocatedMetrics.allocated.cpu
          - reservedCpuOrZero overAllocatedMetrics) ∧
    (UpdateAvailableResources overAllocatedMetrics).available.cpu < 0 := by
  decide

/-! ## C10 — RemoveReservation error and underflow behaviour -/

/-- C10: `RemoveReservation` errors exactly when `Reserved` is nil; when
`Reserved` is non-nil it succeeds and subtracts the full released CPU and
memory from it, with no underflow check. -/
theorem removeReservation_spec (clusterAdv : ClusterAdvertisement)
    (cpuToRelease memoryToRelease : ℤ) :
    (RemoveReservation clusterAdv cpuToRelease memoryToRelease = none
        ↔ clusterAdv.spec.resources.reserved = none) ∧
    (∀ r, clusterAdv.spec.resources.reserved = some r →
      ∃ clusterAdv',
        RemoveReservation clusterAdv cpuToRelease memoryToRelease = some clusterAdv' ∧
        clusterAdv'.spec.resources.reserved
          = some { r with cpu := r.cpu - cpuToRelease
                          memory := r.memory - memoryToRelease }) := by
  constructor
  · cases h : clusterAdv.spec.resources.reserved <;>
      simp [RemoveReservation, h]
  · intro r h
    simp only [RemoveReservation, h]
    exact ⟨_, rfl, by simp [UpdateAvailableResources]⟩

/-- Witness for C10 at a concrete input: releasing 5 CPU / 5 memory from an
advertisement holding only 1/1 reserved succeeds and leaves the negative
reserved quantity `−4/−4` (milli-units `−4000`). -/
theorem removeReservation_spec_witness :
    (RemoveReservation smallReservedAdv 5000 5000).map
        (fun a => a.spec.resources.reserved)
      = some (some { cpu := -4000, memory := -4000 }) ∧
    (-4000 : ℤ) < 0 := by
  obtain ⟨clusterAdv', h1, h2⟩ :=
    (removeReservation_spec smallReservedAdv 5000 5000).2
      { cpu := 1000, memory := 1000 } rfl
  refine ⟨?_, by decide⟩
  rw [h1, Option.map_some', h2]
  decide

/-! ## C9 — releaseResources is a no-op outside Reserved/Active -/

/-- C9: calling `releaseResources` on a Reservation whose phase is neither
Reserved nor Active returns success and leaves every ClusterAdvertisement
unchanged. -/
theorem releaseResources_noop (reservation : Reservation)
    (advItems : List ClusterAdvertisement)
    (h1 : reservation.status.phase ≠ ReservationPhaseReserved)
    (h2 : reservation.status.phase ≠ ReservationPhaseActive) :
    releaseResources reservation advItems = some advItems := by
  simp [releaseResources, h1, h2]

/-- Witness for C9 at a concrete input: a Pending reservation targeting an
existing cluster releases nothing. -/
theorem releaseResources_noop_witness :
    releaseResources
      { spec := { targetClusterID := "consistent"
                  requestedResources := { cpu := 1000, memory := 1000 }
                  requesterID := "x" }
        status := { phase := "Pending" } }
      [consistentAdv]
      = some [consistentAdv] :=
  releaseResources_noop _ _ (by decide) (by decide)

/-! ## C6 — AddReservation/RemoveReservation round trip -/

/-- C6 (amended): for every advertisement, `AddReservation` with a quantity
followed by `RemoveReservation` with the same quantity always succeeds and
restores the reserved CPU and memory exactly (a nil initial `Reserved` being
restored to an explicit zero); the available CPU and memory end at the
recomputed value `allocatable − allocated − reserved`, so they are restored
to their prior values exactly when they already satisfied that formula
before the pair of calls. -/
theorem addRemoveReservation_roundTrip (clusterAdv : ClusterAdvertisement)
    (cpu mem : ℤ) :
    ∃ clusterAdv'',
      RemoveReservation (AddReservation clusterAdv cpu mem) cpu mem
        = some clusterAdv'' ∧
      reservedCpuOrZero clusterAdv''.spec.resources
        = reservedCpuOrZero clusterAdv.spec.resources ∧
      reservedMemoryOrZero clusterAdv''.spec.resources
        = reservedMemoryOrZero clusterAdv.spec.resources ∧
      clusterAdv''.spec.resources.available.cpu
        = clusterAdv.spec.resources.allocatable.cpu
          - clusterAdv.spec.resources.allocated.cpu
          - reservedCpuOrZero clusterAdv.spec.resources ∧
      clusterAdv''.spec.resources.available.memory
        = clusterAdv.spec.resources.allocatable.memory
          - clusterAdv.spec.resources.allocated.memory
          - reservedMemoryOrZero clusterAdv.spec.resources ∧
      ((clusterAdv.spec.resources.available.cpu
          = clusterAdv.spec.resources.allocatable.cpu
            - clusterAdv.spec.resources.allocated.cpu
            - reservedCpuOrZero clusterAdv.spec.resources ∧
        clusterAdv.spec.resources.available.memory
          = clusterAdv.spec.resources.allocatable.memory
            - clusterAdv.spec.resources.allocated.memory
            - reservedMemoryOrZero clusterAdv.spec.resources) →
        (clusterAdv''.spec.resources.available.cpu
            = clusterAdv.spec.resources.available.cpu ∧
         clusterAdv''.spec.resources.available.memory
            = clusterAdv.spec.resources.available.memory)) := by
  obtain ⟨⟨cid, cname, ⟨cap, alloc, alld, rsv, avail⟩, cost, ts, ep⟩, st⟩ := clusterAdv
  cases rsv with
  | none =>
      refine ⟨_, rfl, ?_, ?_, ?_, ?_, ?_⟩ <;>
        (simp [AddReservation, RemoveReservation, UpdateAvailableResources,
          CalculateAvailable, reservedCpuOrZero, reservedMemoryOrZero];
         try omega)
  | some r =>
      refine ⟨_, rfl, ?_, ?_, ?_, ?_, ?_⟩ <;>
        (simp [AddReservation, RemoveReservation, UpdateAvailableResources,
          CalculateAvailable, reservedCpuOrZero, reservedMemoryOrZero];
         try omega)

/-- C6 counterexample: on an advertisement whose stored `available` (100 CPU)
does not match the recomputation formula (1000), reserving and then releasing
500 CPU leaves `available` at the recomputed 1000, not at the 100 it held
before the pair of calls. -/
theorem addRemoveReservation_not_roundTrip :
    (RemoveReservation (AddReservation driftedAdv 500 500) 500 500).map
        (fun a => a.spec.resources.available.cpu) = some 1000 ∧
    driftedAdv.spec.resources.available.cpu = 100 ∧
    (1000 : ℤ) ≠ 100 := by
  decide

/-- Witness for C6 at a concrete input: on `consistentAdv`, whose stored
`available` satisfies the recomputation formula, the 500/500 round trip
restores available CPU and memory exactly. -/
theorem addRemoveReservation_roundTrip_witness :
    (RemoveReservation (AddReservation consistentAdv 500 500) 500 500).map
        (fun a => (a.spec.resources.available.cpu,
                   a.spec.resources.available.memory))
      = some (consistentAdv.spec.resources.available.cpu,
              consistentAdv.spec.resources.available.memory) := by
  obtain ⟨clusterAdv'', h1, _, _, _, _, h6⟩ :=
    addRemoveReservation_roundTrip consistentAdv 500 500
  obtain ⟨hc, hm⟩ := h6 (by decide)
  rw [h1, Option.map_some', hc, hm]

/-! ## The Reservation phase machine -/

/-- A reconcile of a Failed reservation leaves it Failed: the deletion path
never touches the phase, an invalid spec rewrites the phase to Failed again,
and the phase dispatch has no arm for Failed. -/
lemma reconcileReservation_failed_stays (reservation : Reservation)
    (env : ReconcileEnv) (h : reservation.status.phase = ReservationPhaseFailed) :
    (reconcileReservation reservation env).1.status.phase
      = ReservationPhaseFailed := by
  cases hd : env.deletionTimestamp <;>
    cases hf : env.hasFinalizer <;>
    cases hv : validateReservationSpec reservation <;>
    cases hr : releaseResources reservation env.advertisements <;>
    simp [reconcileReservation, hd, hf, hv, hr, h, ReservationPhaseFailed,
      ReservationPhasePending, ReservationPhaseReserved, ReservationPhaseActive]

/-- A reconcile with a deletion timestamp never touches the reservation
itself: it only releases capacity and removes the finalizer. -/
lemma reconcileReservation_deletion_preserves (reservation : Reservation)
    (env : ReconcileEnv) (hd : env.deletionTimestamp = true) :
    (reconcileReservation reservation env).1 = reservation := by
  cases hf : env.hasFinalizer <;>
    cases hr : releaseResources reservation env.advertisements <;>
    simp [reconcileReservation, hd, hf, hr]

/-- A live reconcile of a reservation with an invalid spec sets phase Failed
with the structured validation message. -/
lemma reconcileReservation_invalid_failed (reservation : Reservation)
    (env : ReconcileEnv) (e : String) (hd : env.deletionTimestamp = false)
    (hv : validateReservationSpec reservation = some e) :
    (reconcileReservation reservation env).1.status.phase
        = ReservationPhaseFailed ∧
    (reconcileReservation reservation env).1.status.message
        = "Invalid reservation specification: " ++ e ++
          ". Please check that requesterID is set and requested resources are positive values." := by
  simp [reconcileReservation, hd, hv]

/-- A reconcile of a Released reservation whose spec still validates leaves
it Released: the phase dispatch has no arm for Released. -/
lemma reconcileReservation_released_stays (reservation : Reservation)
    (env : ReconcileEnv) (h : reservation.status.phase = ReservationPhaseReleased)
    (hv : validateReservationSpec reservation = none) :
    (reconcileReservation reservation env).1.status.phase
      = ReservationPhaseReleased := by
  cases hd : env.deletionTimestamp
  · simp [reconcileReservation, hd, hv, h, ReservationPhaseReleased,
      ReservationPhasePending, ReservationPhaseReserved, ReservationPhaseActive]
  · rw [reconcileReservation_deletion_preserves reservation env hd]
    exact h

/-! ## C5 — terminal phases -/

/-- C5 (amended): a reconcile step never leaves the terminal phase set
{Failed, Released}; a Failed reservation always stays Failed, and a Released
reservation stays Released whenever its spec passes validation — but a
Released reservation whose spec has been invalidated is re-stamped Failed by
the validation step, which runs before the phase dispatch. -/
theorem reservationTerminalPhases (reservation : Reservation) (env : ReconcileEnv) :
    (reservation.status.phase = ReservationPhaseFailed →
      (reconcileReservation reservation env).1.status.phase
        = ReservationPhaseFailed) ∧
    (reservation.status.phase = ReservationPhaseReleased →
      validateReservationSpec reservation = none →
      (reconcileReservation reservation env).1.status.phase
        = ReservationPhaseReleased) ∧
    ((reservation.status.phase = ReservationPhaseFailed ∨
        reservation.status.phase = ReservationPhaseReleased) →
      ((reconcileReservation reservation env).1.status.phase
          = ReservationPhaseFailed ∨
        (reconcileReservation reservation env).1.status.phase
          = ReservationPhaseReleased)) := by
  refine ⟨reconcileReservation_failed_stays reservation env,
    reconcileReservation_released_stays reservation env, ?_⟩
  rintro (h | h)
  · exact Or.inl (reconcileReservation_failed_stays reservation env h)
  · cases hv : validateReservationSpec reservation with
    | none => exact Or.inr (reconcileReservation_released_stays reservation env h hv)
    | some e =>
        cases hd : env.deletionTimestamp
        · exact Or.inl (reconcileReservation_invalid_failed reservation env e hd hv).1
        · rw [reconcileReservation_deletion_preserves reservation env hd]
          exact Or.inr h

/-- A Released reservation whose spec no longer validates (empty
requesterID). -/
def releasedInvalidReservation : Reservation :=
  { spec := { targetClusterID := ""
              requestedResources := { cpu := 1000, memory := 1000 }
              requesterID := "" }
    status := { phase := "Released" } }

/-- A Failed reservation with a valid spec. -/
def failedReservation : Reservation :=
  { spec := { requestedResources := { cpu := 1000, memory := 1000 }
              requesterID := "x" }
    status := { phase := "Failed" } }

/-- A Released reservation with a valid spec. -/
def releasedReservation : Reservation :=
  { spec := { requestedResources := { cpu := 1000, memory := 1000 }
              requesterID := "x" }
    status := { phase := "Released" } }

/-- An environment with no deletion timestamp, the finalizer present, no
advertisements, at instant 0. -/
def emptyEnv : ReconcileEnv := {}

/-- C5 counterexample: a Released reservation whose requesterID has been
emptied is moved to Failed by the next reconcile — the phase does change out
of Released, because spec validation runs before the terminal-phase
dispatch. -/
theorem reservationTerminalPhases_counterexample :
    releasedInvalidReservation.status.phase = ReservationPhaseReleased ∧
    (reconcileReservation releasedInvalidReservation emptyEnv).1.status.phase
      = ReservationPhaseFailed ∧
    ReservationPhaseFailed ≠ ReservationPhaseReleased := by
  decide

/-- Witness for C5 at concrete inputs: a Failed reservation reconciles to
Failed, and a Released reservation with a valid spec reconciles to
Released. -/
theorem reservationTerminalPhases_witness :
    (reconcileReservation failedReservation emptyEnv).1.status.phase
      = ReservationPhaseFailed ∧
    (reconcileReservation releasedReservation emptyEnv).1.status.phase
      = ReservationPhaseReleased :=
  ⟨(reservationTerminalPhases failedReservation emptyEnv).1 rfl,
   (reservationTerminalPhases releasedReservation emptyEnv).2.1 rfl (by decide)⟩

/-! ## C4 — spec validation -/

/-- C4 (amended): `validateReservationSpec` accepts a spec exactly when the
requesterID is non-empty and the requested CPU and memory are strictly
positive — GPU, storage and duration are **not** examined — and a live
reconcile of a reservation failing validation stamps phase Failed with the
structured message; Failed is terminal. -/
theorem validateReservationSpec_characterization (reservation : Reservation)
    (env : ReconcileEnv) :
    (validateReservationSpec reservation = none ↔
      (reservation.spec.requesterID ≠ "" ∧
        0 < reservation.spec.requestedResources.cpu ∧
        0 < reservation.spec.requestedResources.memory)) ∧
    (env.deletionTimestamp = false →
      ∀ e, validateReservationSpec reservation = some e →
        (reconcileReservation reservation env).1.status.phase
            = ReservationPhaseFailed ∧
        (reconcileReservation reservation env).1.status.message
            = "Invalid reservation specification: " ++ e ++
              ". Please check that requesterID is set and requested resources are positive values.") ∧
    (∀ r' e', r'.status.phase = ReservationPhaseFailed →
      (reconcileReservation r' e').1.status.phase = ReservationPhaseFailed) := by
  refine ⟨?_, ?_, fun r' e' h => reconcileReservation_failed_stays r' e' h⟩
  · unfold validateReservationSpec
    split_ifs with h1 h2 h3 <;> simp_all
  · exact fun hd e hv => reconcileReservation_invalid_failed reservation env e hd hv

/-- A large active advertisement that can host small requests. -/
def hostAdv : ClusterAdvertisement :=
  { spec := { clusterID := "host"
              resources :=
                { capacity := { cpu := 10000, memory := 10000 }
                  allocatable := { cpu := 10000, memory := 10000 }
                  allocated := { cpu := 0, memory := 0 }
                  reserved := none
                  available := { cpu := 10000, memory := 10000 } }
              timestamp := 0 }
    status := { phase := "Active", active := true } }

/-- A reservation that the spec's validation clause calls invalid — GPU
negative and duration not strictly positive — but with positive CPU/memory
and a non-empty requesterID, targeting `hostAdv`. -/
def negativeGpuReservation : Reservation :=
  { spec := { targetClusterID := "host"
              requestedResources :=
                { cpu := 1000, memory := 1000, gpu := some (-1), storage := some (-5) }
              duration := some 0
              priority := 0
              requesterID := "x" }
    status := {} }

/-- An environment offering only `hostAdv`. -/
def hostEnv : ReconcileEnv := { advertisements := [hostAdv] }

/-- A reservation with zero requested CPU (invalid). -/
def zeroCpuReservation : Reservation :=
  { spec := { requestedResources := { cpu := 0, memory := 1000 }
              requesterID := "x" }
    status := {} }

/-- C4 counterexample: a reservation with a negative GPU request and a zero
duration — invalid per the claim — passes `validateReservationSpec` and is
reconciled all the way to Reserved, not Failed: GPU, storage and duration
are never validated. -/
theorem validateReservationSpec_counterexample :
    validateReservationSpec negativeGpuReservation = none ∧
    (reconcileReservation negativeGpuReservation hostEnv).1.status.phase
      = ReservationPhaseReserved ∧
    ReservationPhaseReserved ≠ ReservationPhaseFailed := by
  decide

/-- Witness for C4 at a concrete input: a zero-CPU reservation fails
validation and is stamped Failed. -/
theorem validateReservationSpec_characterization_witness :
    (reconcileReservation zeroCpuReservation emptyEnv).1.status.phase
      = ReservationPhaseFailed :=
  ((validateReservationSpec_characterization zeroCpuReservation emptyEnv).2.1 rfl
    "requested CPU must be greater than zero" (by decide)).1

/-! ## C8 — staleness threshold default -/

/-- Duration `1 * time.Minute` in nanoseconds. -/
def oneMinute : ℤ := 60 * 1000000000

/-- Duration `5 * time.Minute` in nanoseconds. -/
def fiveMinutes : ℤ := 5 * 60 * 1000000000

/-- C8 (amended): when the configured staleness threshold is zero/unset, the
advertisement reconciler substitutes the default of **2 minutes** (the code
comments it as "reduced from 10"): the advertisement ends with `active=true`
and phase Active exactly when `now − timestamp ≤ 2 min`, and with
`active=false`, phase Stale when the age exceeds 2 minutes. -/
theorem advertisementStalenessDefault (stalenessThreshold now : ℤ)
    (clusterAdv : ClusterAdvertisement) (h : stalenessThreshold = 0) :
    ((reconcileAdvertisement stalenessThreshold now clusterAdv).status.active = true ↔
      now - clusterAdv.spec.timestamp ≤ twoMinutes) ∧
    ((reconcileAdvertisement stalenessThreshold now clusterAdv).status.phase
      = if twoMinutes < now - clusterAdv.spec.timestamp then "Stale" else "Active") := by
  subst h
  constructor
  · simp [reconcileAdvertisement, UpdateClusterScore, not_lt]
  · by_cases hc : twoMinutes < now - clusterAdv.spec.timestamp <;>
      simp [reconcileAdvertisement, UpdateClusterScore, hc]

/-- C8 counterexample: with no configured threshold and an advertisement 5
minutes old — well within the claimed 10-minute default — the reconciler
marks it `active=false`, phase Stale, because the actual default threshold is
2 minutes. -/
theorem advertisementStalenessDefault_counterexample :
    fiveMinutes - hostAdv.spec.timestamp ≤ tenMinutes ∧
    (reconcileAdvertisement 0 fiveMinutes hostAdv).status.active = false ∧
    (reconcileAdvertisement 0 fiveMinutes hostAdv).status.phase = "Stale" := by
  decide

/-- Witness for C8 at a concrete input: a 1-minute-old advertisement is
active under the 2-minute default. -/
theorem advertisementStalenessDefault_witness :
    (reconcileAdvertisement 0 oneMinute hostAdv).status.active = true :=
  (advertisementStalenessDefault 0 oneMinute hostAdv rfl).1.mpr (by decide)

/-! ## C7 — base score -/

/-- C7 (amended): `calculateBaseScore` returns
`(availCPU/allocCPU)·50 + (availMem/allocMem)·50` with **no clamping** (and 0
outright when either allocatable is zero); the result lies in `[0, 100]`
whenever `0 ≤ available ≤ allocatable` holds for both CPU and memory, but
not in general. -/
theorem calculateBaseScore_spec (clusterAdv : ClusterAdvertisement) :
    ((clusterAdv.spec.resources.allocatable.cpu = 0 ∨
        clusterAdv.spec.resources.allocatable.memory = 0) →
      calculateBaseScore clusterAdv = 0) ∧
    (0 < clusterAdv.spec.resources.allocatable.cpu →
      0 < clusterAdv.spec.resources.allocatable.memory →
      0 ≤ clusterAdv.spec.resources.available.cpu →
      clusterAdv.spec.resources.available.cpu
        ≤ clusterAdv.spec.resources.allocatable.cpu →
      0 ≤ clusterAdv.spec.resources.available.memory →
      clusterAdv.spec.resources.available.memory
        ≤ clusterAdv.spec.resources.allocatable.memory →
      0 ≤ calculateBaseScore clusterAdv ∧ calculateBaseScore clusterAdv ≤ 100) := by
  constructor
  · intro h
    simp only [calculateBaseScore]
    rw [if_pos]
    rcases h with h | h <;> [left; right] <;> exact_mod_cast h
  · intro h1 h2 h3 h4 h5 h6
    have hA : (0 : ℚ) < (clusterAdv.spec.resources.allocatable.cpu : ℚ) := by
      exact_mod_cast h1
    have hB : (0 : ℚ) < (clusterAdv.spec.resources.allocatable.memory : ℚ) := by
      exact_mod_cast h2
    have hca : (0 : ℚ) ≤ (clusterAdv.spec.resources.available.cpu : ℚ)
        / (clusterAdv.spec.resources.allocatable.cpu : ℚ) :=
      div_nonneg (by exact_mod_cast h3) hA.le
    have hcb : (clusterAdv.spec.resources.available.cpu : ℚ)
        / (clusterAdv.spec.resources.allocatable.cpu : ℚ) ≤ 1 :=
      (div_le_one hA).mpr (by exact_mod_cast h4)
    have hma : (0 : ℚ) ≤ (clusterAdv.spec.resources.available.memory : ℚ)
        / (clusterAdv.spec.resources.allocatable.memory : ℚ) :=
      div_nonneg (by exact_mod_cast h5) hB.le
    have hmb : (clusterAdv.spec.resources.available.memory : ℚ)
        / (clusterAdv.spec.resources.allocatable.memory : ℚ) ≤ 1 :=
      (div_le_one hB).mpr (by exact_mod_cast h6)
    simp only [calculateBaseScore]
    rw [if_neg (by push_neg; exact ⟨hA.ne', hB.ne'⟩)]
    constructor <;> linarith

/-- An advertisement with negative available CPU (over-committed capacity as
published). -/
def negativeAvailAdv : ClusterAdvertisement :=
  { spec := { clusterID := "neg"
              resources :=
                { capacity := { cpu := 1000, memory := 1000 }
                  allocatable := { cpu := 1000, memory := 1000 }
                  allocated := { cpu := 0, memory := 0 }
                  reserved := none
                  available := { cpu := -1000, memory := 0 } }
              timestamp := 0 }
    status := {} }

/-- C7 counterexample: with available CPU −1 against 1 allocatable, the base
score is −50: it is not clamped to `[0, 100]`, and the value handed to the
score field of the status (the value the persisted string renders) is
negative. -/
theorem calculateBaseScore_counterexample :
    calculateBaseScore negativeAvailAdv = -50 ∧
    calculateBaseScore negativeAvailAdv < 0 ∧
    (UpdateClusterScore negativeAvailAdv).status.score < 0 := by
  norm_num [calculateBaseScore, UpdateClusterScore, negativeAvailAdv]

/-- Witness for C7 at a concrete input: a consistent advertisement (7 of 10
CPU and memory available) scores 70, inside `[0, 100]`. -/
theorem calculateBaseScore_spec_witness :
    0 ≤ calculateBaseScore consistentAdv ∧ calculateBaseScore consistentAdv ≤ 100 :=
  (calculateBaseScore_spec consistentAdv).2 (by decide) (by decide) (by decide)
    (by decide) (by decide) (by decide)

/-! ## C2 — per-request score -/

/-- C2 (amended): the per-request score is
`(1 − 0.5·cpuUtil) + (1 − 0.5·memUtil)`, where
`util = 1 − (available − requested)/allocatable`, multiplied by a flat 0.9
when cost information is present — the cost rates themselves are never read,
so any two cost records give the same score — plus `0.01 · priority`.  With
no cost record, zero priority and `0 ≤ requested ≤ available ≤ allocatable`
on positive allocatables the score lies in `[1, 2]`, not `[0, 1]`; the
specified weighted form `W_R·resourceHeadroom + W_C·costScore` with
`W_R = 0.70`, `W_C = 0.30` is not what the code computes. -/
theorem calculateScore_spec (cluster : ClusterAdvertisement)
    (requestedCPU requestedMemory priority : ℤ) :
    (∀ info₁ info₂ : CostInfo,
      calculateScore
          { cluster with spec := { cluster.spec with cost := some info₁ } }
          requestedCPU requestedMemory priority
        = calculateScore
            { cluster with spec := { cluster.spec with cost := some info₂ } }
            requestedCPU requestedMemory priority) ∧
    (cluster.spec.cost = none → priority = 0 →
      0 ≤ requestedCPU →
      requestedCPU ≤ cluster.spec.resources.available.cpu →
      cluster.spec.resources.available.cpu
        ≤ cluster.spec.resources.allocatable.cpu →
      0 < cluster.spec.resources.allocatable.cpu →
      0 ≤ requestedMemory →
      requestedMemory ≤ cluster.spec.resources.available.memory →
      cluster.spec.resources.available.memory
        ≤ cluster.spec.resources.allocatable.memory →
      0 < cluster.spec.resources.allocatable.memory →
      1 ≤ calculateScore cluster requestedCPU requestedMemory priority ∧
        calculateScore cluster requestedCPU requestedMemory priority ≤ 2) := by
  constructor
  · intro info₁ info₂
    simp [calculateScore]
  · intro hc hp h1 h2 h3 h4 h5 h6 h7 h8
    have hA : (0 : ℚ) < (cluster.spec.resources.allocatable.cpu : ℚ) := by
      exact_mod_cast h4
    have hB : (0 : ℚ) < (cluster.spec.resources.allocatable.memory : ℚ) := by
      exact_mod_cast h8
    have hd1 : (0 : ℚ) ≤ ((cluster.spec.resources.available.cpu : ℚ)
        - (requestedCPU : ℚ)) / (cluster.spec.resources.allocatable.cpu : ℚ) := by
      apply div_nonneg _ hA.le
      have : (requestedCPU : ℚ) ≤ (cluster.spec.resources.available.cpu : ℚ) := by
        exact_mod_cast h2
      linarith
    have hd2 : ((cluster.spec.resources.available.cpu : ℚ) - (requestedCPU : ℚ))
        / (cluster.spec.resources.allocatable.cpu : ℚ) ≤ 1 := by
      rw [div_le_one hA]
      have ha : (cluster.spec.resources.available.cpu : ℚ)
          ≤ (cluster.spec.resources.allocatable.cpu : ℚ) := by exact_mod_cast h3
      have hr : (0 : ℚ) ≤ (requestedCPU : ℚ) := by exact_mod_cast h1
      linarith
    have hm1 : (0 : ℚ) ≤ ((cluster.spec.resources.available.memory : ℚ)
        - (requestedMemory : ℚ)) / (cluster.spec.resources.allocatable.memory : ℚ) := by
      apply div_nonneg _ hB.le
      have : (requestedMemory : ℚ)
          ≤ (cluster.spec.resources.available.memory : ℚ) := by exact_mod_cast h6
      linarith
    have hm2 : ((cluster.spec.resources.available.memory : ℚ) - (requestedMemory : ℚ))
        / (cluster.spec.resources.allocatable.memory : ℚ) ≤ 1 := by
      rw [div_le_one hB]
      have ha : (cluster.spec.resources.available.memory : ℚ)
          ≤ (cluster.spec.resources.allocatable.memory : ℚ) := by exact_mod_cast h7
      have hr : (0 : ℚ) ≤ (requestedMemory : ℚ) := by exact_mod_cast h5
      linarith
    simp only [calculateScore, hc, hp, Int.cast_zero]
    constructor <;> linarith

/-- An active, cost-free advertisement with 2 CPU / 2 memory allocatable, all
of it available. -/
def balancedAdv : ClusterAdvertisement :=
  { spec := { clusterID := "balanced"
              resources :=
                { capacity := { cpu := 2000, memory := 2000 }
                  allocatable := { cpu := 2000, memory := 2000 }
                  allocated := { cpu := 0, memory := 0 }
                  reserved := none
                  available := { cpu := 2000, memory := 2000 } }
              timestamp := 0 }
    status := { phase := "Active", active := true } }

/-- C2 counterexample: for a request of half the capacity of `balancedAdv`
with zero priority, the code's score is 3/2 while the specified
`0.70·resourceHeadroom + 0.30·costScore` formula gives 13/20; the code's
score also escapes the claimed `[0, 1]` range. -/
theorem calculateScore_counterexample :
    calculateScore balancedAdv 1000 1000 0 = 3 / 2 ∧
    specScore balancedAdv 1000 1000 0 = 13 / 20 ∧
    calculateScore balancedAdv 1000 1000 0 ≠ specScore balancedAdv 1000 1000 0 ∧
    ¬(calculateScore balancedAdv 1000 1000 0 ≤ 1) := by
  norm_num [calculateScore, specScore, balancedAdv]

/-- Witness for C2 at concrete inputs: two different cost records yield the
same score, and the cost-free score on `balancedAdv` lies in `[1, 2]`. -/
theorem calculateScore_spec_witness :
    calculateScore
        { balancedAdv with spec := { balancedAdv.spec with
            cost := some { cpuCost := 1 / 10, memoryCost := 1 / 100, currency := "USD" } } }
        1000 1000 0
      = calculateScore
          { balancedAdv with spec := { balancedAdv.spec with
              cost := some { cpuCost := 1, memoryCost := 1, currency := "EUR" } } }
          1000 1000 0 ∧
    1 ≤ calculateScore balancedAdv 1000 1000 0 ∧
      calculateScore balancedAdv 1000 1000 0 ≤ 2 :=
  ⟨(calculateScore_spec balancedAdv 1000 1000 0).1 _ _,
   (calculateScore_spec balancedAdv 1000 1000 0).2 rfl rfl (by decide) (by decide)
     (by decide) (by decide) (by decide) (by decide) (by decide) (by decide)⟩

/-! ## C3 — SelectBestCluster filters and error behaviour -/

/-- Once the loop holds a best cluster it never returns to nil. -/
lemma selectLoop_isSome (items : List ClusterAdvertisement) (requesterID : String)
    (requestedCPU requestedMemory priority : ℤ) (bestScore : ℚ)
    (c : ClusterAdvertisement) :
    (selectLoop items requesterID requestedCPU requestedMemory priority
      bestScore (some c)).isSome := by
  induction items generalizing bestScore c with
  | nil => simp [selectLoop]
  | cons head tail ih =>
      simp only [selectLoop]
      split
      · split
        · exact ih _ _
        · exact ih _ _
      · exact ih _ _

/-- Any cluster the loop returns either was the incoming best or survives the
filters and belongs to the remaining list. -/
lemma selectLoop_mem (items : List ClusterAdvertisement) (requesterID : String)
    (requestedCPU requestedMemory priority : ℤ) (bestScore : ℚ)
    (bestCluster : Option ClusterAdvertisement) (c : ClusterAdvertisement) :
    selectLoop items requesterID requestedCPU requestedMemory priority
        bestScore bestCluster = some c →
    bestCluster = some c ∨
      (c ∈ items ∧ survivesFilters c requesterID requestedCPU requestedMemory = true) := by
  induction items generalizing bestScore bestCluster with
  | nil => intro h; exact Or.inl h
  | cons head tail ih =>
      intro h
      simp only [selectLoop] at h
      by_cases hs : survivesFilters head requesterID requestedCPU requestedMemory = true
      · rw [if_pos hs] at h
        by_cases hb : bestScore < calculateScore head requestedCPU requestedMemory priority
        · rw [if_pos hb] at h
          rcases ih _ _ h with h' | h'
          · obtain rfl : head = c := Option.some.inj h'
            exact Or.inr ⟨List.mem_cons_self _ _, hs⟩
          · exact Or.inr ⟨List.mem_cons_of_mem _ h'.1, h'.2⟩
        · rw [if_neg hb] at h
          rcases ih _ _ h with h' | h'
          · exact Or.inl h'
          · exact Or.inr ⟨List.mem_cons_of_mem _ h'.1, h'.2⟩
      · rw [if_neg hs] at h
        rcases ih _ _ h with h' | h'
        · exact Or.inl h'
        · exact Or.inr ⟨List.mem_cons_of_mem _ h'.1, h'.2⟩

/-- If the loop returns nil then it started with nil and every surviving
candidate scored at most the incoming best score. -/
lemma selectLoop_none (items : List ClusterAdvertisement) (requesterID : String)
    (requestedCPU requestedMemory priority : ℤ) (bestScore : ℚ)
    (bestCluster : Option ClusterAdvertisement) :
    selectLoop items requesterID requestedCPU requestedMemory priority
        bestScore bestCluster = none →
    bestCluster = none ∧
      ∀ c ∈ items, survivesFilters c requesterID requestedCPU requestedMemory = true →
        calculateScore c requestedCPU requestedMemory priority ≤ bestScore := by
  induction items generalizing bestScore bestCluster with
  | nil => intro h; exact ⟨h, by simp⟩
  | cons head tail ih =>
      intro h
      simp only [selectLoop] at h
      by_cases hs : survivesFilters head requesterID requestedCPU requestedMemory = true
      · rw [if_pos hs] at h
        by_cases hb : bestScore < calculateScore head requestedCPU requestedMemory priority
        · rw [if_pos hb] at h
          have hsome := selectLoop_isSome tail requesterID requestedCPU
            requestedMemory priority
            (calculateScore head requestedCPU requestedMemory priority) head
          rw [h] at hsome
          simp at hsome
        · rw [if_neg hb] at h
          obtain ⟨hb', hall⟩ := ih _ _ h
          refine ⟨hb', fun c hc hsc => ?_⟩
          rcases List.mem_cons.mp hc with rfl | hc'
          · exact le_of_not_lt hb
          · exact hall c hc' hsc
      · rw [if_neg hs] at h
        obtain ⟨hb', hall⟩ := ih _ _ h
        refine ⟨hb', fun c hc hsc => ?_⟩
        rcases List.mem_cons.mp hc with rfl | hc'
        · exact absurd hsc hs
        · exact hall c hc' hsc

/-- A surviving candidate with positive allocatable CPU and memory and a
non-negative priority always scores at least 9/10 (and in particular above
the loop's initial −1). -/
lemma calculateScore_lower (c : ClusterAdvertisement)
    (requestedCPU requestedMemory priority : ℤ)
    (hs : hasEnoughResources c requestedCPU requestedMemory = true)
    (hA : 0 < c.spec.resources.allocatable.cpu)
    (hB : 0 < c.spec.resources.allocatable.memory)
    (hp : 0 ≤ priority) :
    (9 : ℚ) / 10 ≤ calculateScore c requestedCPU requestedMemory priority := by
  obtain ⟨h1, h2⟩ : requestedCPU ≤ c.spec.resources.available.cpu ∧
      requestedMemory ≤ c.spec.resources.available.memory := by
    simpa [hasEnoughResources, Bool.and_eq_true, decide_eq_true_eq] using hs
  have hAq : (0 : ℚ) < (c.spec.resources.allocatable.cpu : ℚ) := by exact_mod_cast hA
  have hBq : (0 : ℚ) < (c.spec.resources.allocatable.memory : ℚ) := by exact_mod_cast hB
  have hd1 : (0 : ℚ) ≤ ((c.spec.resources.available.cpu : ℚ) - (requestedCPU : ℚ))
      / (c.spec.resources.allocatable.cpu : ℚ) := by
    apply div_nonneg _ hAq.le
    have : (requestedCPU : ℚ) ≤ (c.spec.resources.available.cpu : ℚ) := by
      exact_mod_cast h1
    linarith
  have hd2 : (0 : ℚ) ≤ ((c.spec.resources.available.memory : ℚ) - (requestedMemory : ℚ))
      / (c.spec.resources.allocatable.memory : ℚ) := by
    apply div_nonneg _ hBq.le
    have : (requestedMemory : ℚ) ≤ (c.spec.resources.available.memory : ℚ) := by
      exact_mod_cast h2
    linarith
  have hbonus : (0 : ℚ) ≤ (priority : ℚ) * 0.01 := by
    have : (0 : ℚ) ≤ (priority : ℚ) := by exact_mod_cast hp
    positivity
  cases hc : c.spec.cost with
  | none =>
      simp only [calculateScore, hc]
      linarith
  | some info =>
      simp only [calculateScore, hc]
      linarith

/-- C3 (amended): a cluster returned by `SelectBestCluster` always satisfies
the three filters (active, not the requester's own cluster, enough available
CPU and memory); when no advertisement survives filtering an error is
returned; and conversely when some advertisement survives filtering, the
priority is non-negative, and that advertisement's allocatable CPU and
memory are positive, a cluster is returned — with a sufficiently negative
priority the error can occur even though an advertisement satisfies all
three filters, because such a candidate scores at or below the loop's
initial best score of −1. -/
theorem SelectBestCluster_spec (advItems : List ClusterAdvertisement)
    (requesterID : String) (requestedCPU requestedMemory priority : ℤ) :
    (∀ c, SelectBestCluster advItems requesterID requestedCPU requestedMemory
          priority = some c →
      c ∈ advItems ∧ c.status.active = true ∧ c.spec.clusterID ≠ requesterID ∧
        requestedCPU ≤ c.spec.resources.available.cpu ∧
        requestedMemory ≤ c.spec.resources.available.memory) ∧
    ((∀ c ∈ advItems, survivesFilters c requesterID requestedCPU requestedMemory
          = false) →
      SelectBestCluster advItems requesterID requestedCPU requestedMemory
          priority = none) ∧
    (0 ≤ priority →
      ∀ c ∈ advItems,
        survivesFilters c requesterID requestedCPU requestedMemory = true →
        0 < c.spec.resources.allocatable.cpu →
        0 < c.spec.resources.allocatable.memory →
        ∃ chosen, SelectBestCluster advItems requesterID requestedCPU
            requestedMemory priority = some chosen) := by
  refine ⟨?_, ?_, ?_⟩
  · intro c h
    unfold SelectBestCluster at h
    by_cases he : advItems = []
    · rw [if_pos he] at h
      exact absurd h (by simp)
    · rw [if_neg he] at h
      rcases selectLoop_mem _ _ _ _ _ _ _ _ h with h' | ⟨hmem, hsur⟩
      · exact absurd h' (by simp)
      · simp only [survivesFilters, hasEnoughResources, Bool.and_eq_true,
          Bool.not_eq_true', decide_eq_false_iff_not, decide_eq_true_eq] at hsur
        exact ⟨hmem, hsur.1.2, hsur.1.1, hsur.2.1, hsur.2.2⟩
  · intro hall
    unfold SelectBestCluster
    by_cases he : advItems = []
    · rw [if_pos he]
    · rw [if_neg he]
      induction advItems with
      | nil => simp [selectLoop]
      | cons head tail ih =>
          simp only [selectLoop]
          rw [if_neg (by simp [hall head (List.mem_cons_self _ _)])]
          by_cases ht : tail = []
          · subst ht; simp [selectLoop]
          · exact ih (fun c hc => hall c (List.mem_cons_of_mem _ hc)) ht
  · intro hp c hc hsur hA hB
    cases h : SelectBestCluster advItems requesterID requestedCPU requestedMemory
        priority with
    | some chosen => exact ⟨chosen, rfl⟩
    | none =>
        exfalso
        unfold SelectBestCluster at h
        by_cases he : advItems = []
        · subst he; simp at hc
        · rw [if_neg he] at h
          obtain ⟨-, hall⟩ := selectLoop_none _ _ _ _ _ _ _ h
          have hle := hall c hc hsur
          have henough : hasEnoughResources c requestedCPU requestedMemory = true := by
            simp only [survivesFilters, Bool.and_eq_true] at hsur
            exact hsur.2
          have hge := calculateScore_lower c requestedCPU requestedMemory priority
            henough hA hB hp
          linarith

/-- C3 counterexample: `balancedAdv` is active, distinct from the requester,
and has enough resources — it survives all three filters — yet with priority
−400 its score is −5/2 ≤ −1, so the loop never adopts it and
`SelectBestCluster` returns the error. -/
theorem SelectBestCluster_counterexample :
    survivesFilters balancedAdv "x" 1000 1000 = true ∧
    SelectBestCluster [balancedAdv] "x" 1000 1000 (-400) = none := by
  refine ⟨by decide, ?_⟩
  have hscore : calculateScore balancedAdv 1000 1000 (-400) = -(5 / 2 : ℚ) := by
    norm_num [calculateScore, balancedAdv]
  simp only [SelectBestCluster, selectLoop]
  rw [if_neg (by simp : ¬([balancedAdv] = [])),
    if_pos (by decide : survivesFilters balancedAdv "x" 1000 1000 = true),
    if_neg (by rw [hscore]; norm_num :
      ¬((-1 : ℚ) < calculateScore balancedAdv 1000 1000 (-400)))]

/-- Witness for C3 at a concrete input: with zero priority the surviving
candidate `balancedAdv` is selected. -/
theorem SelectBestCluster_spec_witness :
    (SelectBestCluster [balancedAdv] "x" 1000 1000 0).isSome = true := by
  obtain ⟨chosen, h⟩ :=
    (SelectBestCluster_spec [balancedAdv] "x" 1000 1000 0).2.2 (by norm_num)
      balancedAdv (by simp) (by decide) (by decide) (by decide)
  simp [h]
